import Mathlib

/-!
Verification of the offline media synchronization engine
(MediaBrowser.WebDashboard/dashboard-ui/apiclient/sync/mediasync.js)
against its natural-language specification.

The JavaScript module is continuation-passing code over jQuery-style
deferreds.  The shallow embedding below models

* the settlement of a deferred as an `Outcome`: `resolved v`, `rejected`,
  or `unsettled` (the deferred is never settled, either because an
  uncaught exception was thrown in a callback, so no handler ever runs,
  or because a sub-deferred rejects and no failure handler was attached);
* every external collaborator call (remote API client via `apiClient`,
  local store via `LocalAssetManager`) as a lookup in an oracle `Env`
  holding the answer each call would produce;
* the external calls actually performed as a trace of `Ev` values, in
  execution order;
* identifier resolution for identifiers the module reads without binding
  them: each function's scope chain is the list of names bound by the
  function itself (parameters and hoisted `var`s), the enclosing
  `mediaSync` body (hoisted function declarations and `var self`), and
  the module's ambient globals, all transcribed from the source text.
  Reading a name that is in no scope throws a `ReferenceError` in
  JavaScript, which in this deferred discipline leaves the enclosing
  deferred unsettled forever (jQuery deferred callbacks run without any
  try/catch, so the exception escapes and neither resolve nor reject is
  ever called).
-/

namespace MediaSyncSpec

/-- A user entry of `serverInfo.Users`; only its `Id` is read (line 79). -/
structure SUser where
  Id : String
deriving DecidableEq

/-- The `serverInfo` argument threaded through the module.  `Users` is
optional because line 79 guards with `(serverInfo.Users || [])`. -/
structure ServerInfo where
  Id : String
  Users : Option (List SUser)

/-- A queued offline action record (opaque payload; only identity matters
to the control flow). -/
structure RemoteAction where
  Id : String
deriving DecidableEq

/-- The reconciliation request built at lines 76-80. -/
structure SyncRequest where
  TargetId : String
  LocalItemIds : List String
  OfflineUserIds : List String
deriving DecidableEq

/-- The reconciliation result consumed by `afterSyncData`:
`ItemIdsToRemove` and the object `ItemUserAccess` (modelled as an
association list whose keys are enumerated in order by the
`for (var id in ...)` loop at lines 446-448). -/
structure SyncDataResult where
  ItemIdsToRemove : List String
  ItemUserAccess : List (String × List String)
deriving DecidableEq

/-- A media stream entry of a media source (lines 408-410, 429).
The source field named `Type` is called `type` here because `Type` is a
Lean keyword. -/
structure MediaStream where
  type : String
  Index : Nat
  Path : Option String
deriving DecidableEq

/-- A media source of a library item (lines 366, 376). -/
structure MediaSource where
  MediaStreams : List MediaStream
deriving DecidableEq

/-- The library item mirrored inside a sync job item.  Optional fields
model JavaScript properties that may be absent (`undefined` is falsy at
the `if (!itemId)` / `if (!imageTag)` checks of lines 310-318).
`ImageTags` is optional because line 289 guards with
`(libraryItem.ImageTags || {})`. -/
structure LibraryItem where
  Id : Option String
  ServerId : String
  ImageTags : Option (List (String × String))
  SeriesId : Option String
  SeriesPrimaryImageTag : Option String
  AlbumId : Option String
  AlbumPrimaryImageTag : Option String
  MediaSources : List MediaSource
deriving DecidableEq

instance : Inhabited LibraryItem :=
  ⟨{ Id := none, ServerId := "", ImageTags := none, SeriesId := none,
     SeriesPrimaryImageTag := none, AlbumId := none,
     AlbumPrimaryImageTag := none, MediaSources := [] }⟩

instance : Inhabited MediaSource := ⟨{ MediaStreams := [] }⟩

/-- An additional file of a job item (lines 372-374).  The source field
named `Type` is called `type` here because `Type` is a Lean keyword. -/
structure AddFile where
  type : String
  Name : String
  Index : Nat
deriving DecidableEq

instance : Inhabited AddFile := ⟨{ type := "", Name := "", Index := 0 }⟩

/-- A server-declared sync job item (lines 196-229). -/
structure JobItem where
  Item : LibraryItem
  OriginalFileName : String
  AdditionalFiles : List AddFile
  SyncJobItemId : String
deriving DecidableEq

/-- The on-device record of a synced library item; only the fields the
synchronization control flow touches are modelled. -/
structure LocalItem where
  LocalPath : String
  UserIdsWithAccess : List String
deriving DecidableEq

instance : Inhabited JobItem :=
  ⟨{ Item := default, OriginalFileName := "", AdditionalFiles := [],
     SyncJobItemId := "" }⟩

instance : Inhabited LocalItem :=
  ⟨{ LocalPath := "", UserIdsWithAccess := [] }⟩

/-- Trace events: one per external collaborator call performed, each
recording whether the call succeeded, plus three bookkeeping events:
`reconcileResolvedEv` marks the instant the reconciliation deferred of
`syncData`/`afterSyncData` is first settled (always a resolve, line 113
or 103/108), `slotVisitedEv i` marks that image-slot evaluation reached
the slot table with index `i` (line 277 onward), and `scopeFaultEv n`
marks a `ReferenceError` thrown by reading the unbound identifier `n`. -/
inductive Ev where
  | getOfflineActionsEv (serverId : String) (ok : Bool)
  | reportActionsEv (count : Nat) (ok : Bool)
  | deleteActionsEv (count : Nat) (ok : Bool)
  | getServerItemIdsEv (serverId : String) (ok : Bool)
  | syncDataCallEv (ok : Bool)
  | reconcileResolvedEv
  | removeItemEv (itemId : String) (ok : Bool)
  | getReadySyncItemsEv (ok : Bool)
  | createLocalItemEv (ok : Bool)
  | downloadFileEv (localPath : String) (ok : Bool)
  | addOrUpdateLocalItemEv (ok : Bool)
  | slotVisitedEv (index : Nat)
  | hasImageEv (serverId itemId imageTag : String) (result : Option Bool)
  | downloadImageEv (itemId imageTag : String) (ok : Bool)
  | getLocalItemEv (itemId : String) (ok : Bool)
  | downloadSubtitlesEv (ok : Bool)
  | reportTransferredEv (jobItemId : String) (ok : Bool)
  | scopeFaultEv (name : String)
deriving DecidableEq

/-- How a jQuery-style deferred ends up, observed from the outside. -/
inductive Outcome (α : Type) where
  | resolved : α → Outcome α
  | rejected : Outcome α
  | unsettled : Outcome α
deriving DecidableEq

/-- The result of running one of the module's functions: the settlement of
the deferred it returns, together with the trace of events produced. -/
abbrev Res (α : Type) := Outcome α × List Ev

/-- An external collaborator call wrapped in a deferred: the oracle answer
`Except.ok a` resolves it with `a`, `Except.error` rejects it.  The event
records the success flag. -/
def call (x : Except Unit α) (ev : Bool → Ev) : Res α :=
  match x with
  | Except.ok a => (Outcome.resolved a, [ev true])
  | Except.error _ => (Outcome.rejected, [ev false])

/-- The ubiquitous `x.done(onOk).fail(...)` chaining: if `r` resolved, run
`onOk`; if it rejected, run `onFail` (which is `(Outcome.rejected, [])`
whenever the failure handler is `getOnFail(deferred)`, lines 502-507); if
it is unsettled, no handler ever fires, so the enclosing deferred is
unsettled too. -/
def andThen (r : Res α) (onOk : α → Res β) (onFail : Res β) : Res β :=
  match r with
  | (Outcome.resolved a, t) => ((onOk a).1, t ++ (onOk a).2)
  | (Outcome.rejected, t) => (onFail.1, t ++ onFail.2)
  | (Outcome.unsettled, t) => (Outcome.unsettled, t)

/-- The fault-isolating iteration step `x.done(cont).fail(cont)` used by
the batch iterators (lines 137-142, 188-193, 394-400, 465-470): the same
continuation runs whether `r` resolved or rejected, but an unsettled `r`
still blocks everything after it. -/
def seqSwallow (r : Res α) (k : Res β) : Res β :=
  match r with
  | (Outcome.resolved _, t) => (k.1, t ++ k.2)
  | (Outcome.rejected, t) => (k.1, t ++ k.2)
  | (Outcome.unsettled, t) => (Outcome.unsettled, t)

/-- Evaluation of an identifier against a scope chain: if the name is
bound, continue with `k`; otherwise a `ReferenceError` is thrown, no
handler of the enclosing deferred ever runs, and it stays unsettled. -/
def readIdent (scopeChain : List String) (name : String) (k : Res α) : Res α :=
  if name ∈ scopeChain then k else (Outcome.unsettled, [Ev.scopeFaultEv name])

/-- JavaScript truthiness of a possibly-absent string property:
`undefined`/`null` and the empty string are falsy. -/
def truthyStr : Option String → Bool
  | none => false
  | some s => s != ""

/-- The comparison key used at line 484: `list.join(',')`. -/
def joinComma (l : List String) : String := String.intercalate "," l

/-- Whether an oracle answer was a success (used to describe traces). -/
def exOk : Except Unit Unit → Bool
  | Except.ok _ => true
  | Except.error _ => false

def isDeleteActionsEv : Ev → Bool
  | Ev.deleteActionsEv _ _ => true
  | _ => false

def isGetLocalItemEv : Ev → Bool
  | Ev.getLocalItemEv _ _ => true
  | _ => false

def isAddOrUpdateEv : Ev → Bool
  | Ev.addOrUpdateLocalItemEv _ => true
  | _ => false

def isReportTransferredEv : Ev → Bool
  | Ev.reportTransferredEv _ _ => true
  | _ => false

/-- The oracle for the two external collaborators (remote API client and
local asset store): for each operation, the answer it would return for
given arguments.  `Except.error ()` means the call's deferred rejects. -/
structure Env where
  deviceId : String
  accessToken : String
  getOfflineActionsR : String → Except Unit (List RemoteAction)
  reportOfflineActionsR : List RemoteAction → Except Unit Unit
  deleteOfflineActionsR : List RemoteAction → Except Unit Unit
  getServerItemIdsR : String → Except Unit (List String)
  syncDataR : SyncRequest → Except Unit SyncDataResult
  removeLocalItemR : String → String → Except Unit Unit
  getReadySyncItemsR : String → Except Unit (List JobItem)
  createLocalItemR : LibraryItem → ServerInfo → String → Except Unit LocalItem
  downloadFileR : String → String → Except Unit Unit
  addOrUpdateLocalItemR : LocalItem → Except Unit Unit
  hasImageR : String → String → String → Except Unit Bool
  downloadImageR : String → String → String → String → Except Unit Unit
  getLocalItemR : String → String → Except Unit LocalItem
  downloadSubtitlesR : String → LocalItem → MediaStream → Except Unit String
  reportSyncJobItemTransferredR : String → Except Unit Unit

/-- Names bound in the body of `mediaSync` (lines 3-508): `var self` at
line 5 and the twenty hoisted function declarations.  Every nested
function sees these. -/
def mediaSyncBodyNames : List String :=
  ["self", "reportOfflineActions", "syncData", "afterSyncData",
   "removeLocalItems", "removeNextLocalItem", "removeLocalItem",
   "getNewMedia", "getNextNewItem", "getNewItem", "downloadMedia",
   "getImages", "getNextImage", "downloadImage", "getSubtitles",
   "getNextSubtitle", "getItemSubtitle", "syncUserItemAccess",
   "syncNextUserAccessForItem", "syncUserAccessForItem", "getOnFail"]

/-- Names the module has from outside its own body: the immediately
invoked wrapper's parameter `globalScope` and its hoisted declaration
`mediaSync` (lines 1, 3, 516), plus the ambient globals the file itself
relies on — the spec's external collaborators (`DeferredBuilder`,
`Logger`, `require`, `LocalAssetManager`) and the `MediaBrowser`
namespace object it installs (lines 510-514).  `arguments` is bound
inside every JavaScript function. -/
def moduleAmbientNames : List String :=
  ["globalScope", "mediaSync", "DeferredBuilder", "Logger", "require",
   "LocalAssetManager", "MediaBrowser", "arguments"]

/-- The scope chain of one of the nested functions: its own parameters
and hoisted `var`s, then the `mediaSync` body, then the ambient names. -/
def scopeChainOf (localNames : List String) : List String :=
  localNames ++ mediaSyncBodyNames ++ moduleAmbientNames

/-- Parameters and hoisted `var`s of `getNextImage` (lines 269-325):
parameters `index, apiClient, localItem, deferred`; `var`s `libraryItem,
serverId, itemId, imageTag, imageType`.  Note that no enclosing scope
binds `item`, which line 277 reads. -/
def getNextImageLocalNames : List String :=
  ["index", "apiClient", "localItem", "deferred",
   "libraryItem", "serverId", "itemId", "imageTag", "imageType"]

/-- Parameters and hoisted `var`s of `getNextSubtitle` (lines 384-401):
parameters `files, index, apiClient, jobItem, localItem, mediaSource`;
`var length`.  Note that no enclosing scope binds `deferred` (read at
line 390) or `file` (read at line 394). -/
def getNextSubtitleLocalNames : List String :=
  ["files", "index", "apiClient", "jobItem", "localItem", "mediaSource",
   "length"]

/-- Parameters and hoisted `var`s of `getSubtitles` (lines 359-382):
parameters `apiClient, jobItem, localItem`; `var`s `deferred, files,
mediaSource`.  Note that no enclosing scope binds `logger` (lowercase),
which line 367 reads; the module's logging global is `Logger`. -/
def getSubtitlesLocalNames : List String :=
  ["apiClient", "jobItem", "localItem", "deferred", "files", "mediaSource"]

/-- Parameters and hoisted `var`s of `syncUserAccessForItem`
(lines 473-500): parameters `itemId, syncDataResult`; `var deferred`.
Note that no enclosing scope binds `serverId`, which line 480 reads
(`serverId` is a parameter of the sibling functions, not of this one). -/
def syncUserAccessForItemLocalNames : List String :=
  ["itemId", "syncDataResult", "deferred"]

/-- Lines 145-161, `removeLocalItem(itemId, serverId)`: one store call;
its failure handler is `getOnFail(deferred)`, so a store failure rejects
this item's deferred. -/
def removeLocalItem (itemId serverId : String) (env : Env) : Res Unit :=
  call (env.removeLocalItemR itemId serverId) (Ev.removeItemEv itemId)

/-- Lines 127-143, `removeNextLocalItem`: sequential iteration over the
removal list; both the `done` and the `fail` handler continue with the
next index, so a per-item failure is swallowed (claim C8). -/
def removeNextLocalItem (itemIdsToRemove : List String) (index : Nat)
    (serverId : String) (env : Env) : Res Unit :=
  if h : index ≥ itemIdsToRemove.length then (Outcome.resolved (), [])
  else
    seqSwallow (removeLocalItem (itemIdsToRemove.getD index "") serverId env)
      (removeNextLocalItem itemIdsToRemove (index + 1) serverId env)
termination_by itemIdsToRemove.length - index
decreasing_by
  simp only [not_le] at h
  omega

/-- Lines 116-125, `removeLocalItems`: starts the removal iteration at
index 0. -/
def removeLocalItems (syncDataResult : SyncDataResult) (serverId : String)
    (env : Env) : Res Unit :=
  removeNextLocalItem syncDataResult.ItemIdsToRemove 0 serverId env

/-- Lines 480-496 of `syncUserAccessForItem`, taken from the point where
the store lookup `LocalAssetManager.getLocalItem(itemId, serverId)` is
issued, with the identifier `serverId` supplied as an argument.  (In the
source that identifier is free — see `syncUserAccessForItem` below — so
this body is reached only under a repair of that fault; it is the logic
claim C4 is about.)  The access lists are compared by equality of their
comma-joined strings (line 484); only on inequality is the record updated
and persisted (lines 490-493). -/
def syncUserAccessForItemCore (itemId : String)
    (syncDataResult : SyncDataResult) (serverId : String) (env : Env) :
    Res Unit :=
  andThen (call (env.getLocalItemR itemId serverId) (Ev.getLocalItemEv itemId))
    (fun localItem =>
      let userIdsWithAccess :=
        ((syncDataResult.ItemUserAccess.lookup itemId).getD [])
      if joinComma userIdsWithAccess == joinComma localItem.UserIdsWithAccess
      then
        -- "Hasn't changed, nothing to do" (line 485): resolve, no write
        (Outcome.resolved (), [])
      else
        andThen
          (call
            (env.addOrUpdateLocalItemR
              { localItem with UserIdsWithAccess := userIdsWithAccess })
            Ev.addOrUpdateLocalItemEv)
          (fun _ => (Outcome.resolved (), []))
          (Outcome.rejected, []))
    (Outcome.rejected, [])

/-- Lines 473-500, `syncUserAccessForItem(itemId, syncDataResult)`: the
first statement inside the `require` callback evaluates the argument
expression `serverId` (line 480), a name bound in no enclosing scope, so
the callback throws and the deferred is never settled.  The `""` passed
to the core is a placeholder for the value the unbound identifier would
have; `readIdent` never reaches it. -/
def syncUserAccessForItem (itemId : String)
    (syncDataResult : SyncDataResult) (env : Env) : Res Unit :=
  readIdent (scopeChainOf syncUserAccessForItemLocalNames) "serverId"
    (syncUserAccessForItemCore itemId syncDataResult "" env)

/-- Lines 455-471, `syncNextUserAccessForItem`: sequential iteration over
the access-mapping keys; `done` and `fail` both continue with the next
index. -/
def syncNextUserAccessForItem (itemIds : List String) (index : Nat)
    (syncDataResult : SyncDataResult) (serverId : String) (env : Env) :
    Res Unit :=
  if h : index ≥ itemIds.length then (Outcome.resolved (), [])
  else
    seqSwallow (syncUserAccessForItem (itemIds.getD index "") syncDataResult env)
      (syncNextUserAccessForItem itemIds (index + 1) syncDataResult serverId env)
termination_by itemIds.length - index
decreasing_by
  simp only [not_le] at h
  omega

/-- Lines 440-453, `syncUserItemAccess`: enumerates the keys of
`syncDataResult.ItemUserAccess` in order and iterates them. -/
def syncUserItemAccess (syncDataResult : SyncDataResult) (serverId : String)
    (env : Env) : Res Unit :=
  let itemIds := syncDataResult.ItemUserAccess.map (fun p => p.1)
  syncNextUserAccessForItem itemIds 0 syncDataResult serverId env

/-- Lines 94-114, `afterSyncData`.  The body attaches
`removeLocalItems(...).done(...).fail(...)` and then, still in the same
synchronous run, executes `deferred.resolve()` at line 113.  The trace
below is in execution order, derived from the deferred discipline:

* removal list nonempty — `removeNextLocalItem` reaches
  `removeLocalItem`, whose work sits behind an asynchronous `require`
  callback and an asynchronous store call, so nothing of the removal
  sub-phase has happened when line 113 resolves the deferred: the
  resolution marker comes first, the removal events after it, and, if
  access propagation is enabled, the access events after those (they run
  in the `done` handler of line 98, which fires once removal finishes;
  the `deferred.resolve()` at line 103/108 is then a no-op because the
  deferred is already resolved);
* removal list empty — `removeLocalItems` resolves synchronously, so the
  `done` handler at line 98 fires as soon as it is attached: with access
  propagation off (or an empty access mapping) the deferred is resolved
  there, before line 113; with a nonempty access mapping the first
  per-item access call parks behind an asynchronous `require`, line 113
  resolves the deferred, and the access events follow.

In every case the deferred is resolved: the reconciliation call never
rejects and never waits for its sub-phases (claim C2), and per-item
failures inside the sub-phases cannot affect it (claim C8). -/
def afterSyncData (serverInfo : ServerInfo)
    (enableSyncUserItemAccess : Bool) (syncDataResult : SyncDataResult)
    (env : Env) : Res Unit :=
  if syncDataResult.ItemIdsToRemove.isEmpty then
    if enableSyncUserItemAccess then
      if syncDataResult.ItemUserAccess.isEmpty then
        (Outcome.resolved (), [Ev.reconcileResolvedEv])
      else
        (Outcome.resolved (),
          Ev.reconcileResolvedEv ::
            (syncUserItemAccess syncDataResult serverInfo.Id env).2)
    else (Outcome.resolved (), [Ev.reconcileResolvedEv])
  else
    (Outcome.resolved (),
      Ev.reconcileResolvedEv ::
        ((removeLocalItems syncDataResult serverInfo.Id env).2 ++
          (if enableSyncUserItemAccess then
            (syncUserItemAccess syncDataResult serverInfo.Id env).2
          else [])))

/-- Lines 66-92, `syncData(apiClient, serverInfo, syncUserItemAccess)`:
enumerate local item ids, send the reconciliation request, then hand the
result to `afterSyncData`.  A failure of either remote/store call rejects
the call (`getOnFail`).  The boolean parameter is named
`syncUserItemAccess` in the source, shadowing the function of the same
name; it is forwarded to `afterSyncData` as `enableSyncUserItemAccess`. -/
def syncData (serverInfo : ServerInfo) (syncUserItemAccessFlag : Bool)
    (env : Env) : Res Unit :=
  andThen
    (call (env.getServerItemIdsR serverInfo.Id)
      (Ev.getServerItemIdsEv serverInfo.Id))
    (fun localIds =>
      let request : SyncRequest :=
        { TargetId := env.deviceId,
          LocalItemIds := localIds,
          OfflineUserIds := ((serverInfo.Users.getD []).map (fun u => u.Id)) }
      andThen (call (env.syncDataR request) Ev.syncDataCallEv)
        (fun result =>
          afterSyncData serverInfo syncUserItemAccessFlag result env)
        (Outcome.rejected, []))
    (Outcome.rejected, [])

/-- Lines 35-64, `reportOfflineActions`: read the queued actions; if none,
resolve with no network call; otherwise upload the batch, and only in the
upload's `done` handler delete the batch locally.  Every failure rejects
the whole call (`getOnFail`), and in particular a failed upload never
reaches the delete (claim C3). -/
def reportOfflineActions (serverInfo : ServerInfo) (env : Env) : Res Unit :=
  andThen
    (call (env.getOfflineActionsR serverInfo.Id)
      (Ev.getOfflineActionsEv serverInfo.Id))
    (fun actions =>
      if actions.length = 0 then (Outcome.resolved (), [])
      else
        andThen
          (call (env.reportOfflineActionsR actions)
            (Ev.reportActionsEv actions.length))
          (fun _ =>
            andThen
              (call (env.deleteOfflineActionsR actions)
                (Ev.deleteActionsEv actions.length))
              (fun _ => (Outcome.resolved (), []))
              (Outcome.rejected, []))
          (Outcome.rejected, []))
    (Outcome.rejected, [])

/-- Lines 327-357, `downloadImage`: check whether the image already exists
locally; if so resolve (already satisfied); otherwise download it.  The
existence check's deferred has no `fail` handler attached (the chain at
lines 334-353 ends with `});` — no `.fail`), so if that check rejects,
this deferred is never settled.  A failed download rejects via
`getOnFail`. -/
def downloadImage (serverId itemId imageTag imageType : String) (env : Env) :
    Res Unit :=
  match env.hasImageR serverId itemId imageTag with
  | Except.error _ =>
      (Outcome.unsettled, [Ev.hasImageEv serverId itemId imageTag none])
  | Except.ok true =>
      (Outcome.resolved (), [Ev.hasImageEv serverId itemId imageTag (some true)])
  | Except.ok false =>
      (let r :=
        andThen
          (call (env.downloadImageR serverId itemId imageTag imageType)
            (Ev.downloadImageEv itemId imageTag))
          (fun _ => (Outcome.resolved (), []))
          (Outcome.rejected, []);
       (r.1, Ev.hasImageEv serverId itemId imageTag (some false) :: r.2))

/-- The `itemId` chosen by the `switch (index)` at lines 284-308. -/
def slotItemId (index : Nat) (libraryItem : LibraryItem) : Option String :=
  match index with
  | 0 => libraryItem.Id
  | 1 => libraryItem.SeriesId
  | 2 => libraryItem.SeriesId
  | 3 => libraryItem.AlbumId
  | _ => none

/-- The `imageTag` chosen by the `switch (index)` at lines 284-308; slot 0
reads `(libraryItem.ImageTags || {})["Primary"]` (line 289). -/
def slotImageTag (index : Nat) (libraryItem : LibraryItem) : Option String :=
  match index with
  | 0 => (libraryItem.ImageTags.getD []).lookup "Primary"
  | 1 => libraryItem.SeriesPrimaryImageTag
  | 2 => libraryItem.SeriesPrimaryImageTag
  | 3 => libraryItem.AlbumPrimaryImageTag
  | _ => none

/-- The `imageType` chosen by the `switch (index)` at lines 284-308
(initialised to "Primary" at line 282; only slot 2 sets "Thumb"). -/
def slotImageType (index : Nat) : String :=
  match index with
  | 2 => "Thumb"
  | _ => "Primary"

/-- Lines 277-325 of `getNextImage` from the point after the `index >= 4`
guard, with the library item that the unbound identifier `item` was
evidently meant to denote supplied as an argument (`var libraryItem =
item.Item` at line 277; see `getNextImage` below for the fault itself).
A `slotVisitedEv index` event marks that slot evaluation reached this
index.  Per the source: a falsy `itemId` resolves the whole image step
(line 310-313), a falsy `imageTag` skips to the next slot (line 315-318),
and a download failure hits `.fail(getOnFail(deferred))` (line 324),
rejecting the image step without visiting further slots. -/
def getNextImageSlots (index : Nat) (libraryItem : LibraryItem)
    (localItem : LocalItem) (env : Env) : Res Unit :=
  if h : index ≥ 4 then (Outcome.resolved (), [])
  else
    (let serverId := libraryItem.ServerId;
     let itemId := slotItemId index libraryItem;
     let imageTag := slotImageTag index libraryItem;
     let imageType := slotImageType index;
     if truthyStr itemId = false then
       (Outcome.resolved (), [Ev.slotVisitedEv index])
     else if truthyStr imageTag = false then
       (let r := getNextImageSlots (index + 1) libraryItem localItem env;
        (r.1, Ev.slotVisitedEv index :: r.2))
     else
       (let r :=
          andThen
            (downloadImage serverId (itemId.getD "") (imageTag.getD "")
              imageType env)
            (fun _ => getNextImageSlots (index + 1) libraryItem localItem env)
            (Outcome.rejected, []);
        (r.1, Ev.slotVisitedEv index :: r.2)))
termination_by 4 - index
decreasing_by
  all_goals
    simp only [not_le] at h
    omega

/-- Lines 269-325, `getNextImage(index, apiClient, localItem, deferred)`:
after the `index >= 4` guard, line 277 evaluates `item.Item`.  The
identifier `item` is bound in no enclosing scope (the job item is not
passed in; the parameter is `localItem`), so the function throws before
the slot table runs and the images deferred is never settled.  The
`default` library item passed to the dead continuation stands for the
value the unbound identifier would have had. -/
def getNextImage (index : Nat) (localItem : LocalItem) (env : Env) :
    Res Unit :=
  if index ≥ 4 then (Outcome.resolved (), [])
  else
    readIdent (scopeChainOf getNextImageLocalNames) "item"
      (getNextImageSlots index default localItem env)

/-- Lines 260-267, `getImages(apiClient, jobItem, localItem)`: starts slot
evaluation at index 0.  Note the job item is not forwarded — only
`localItem` and the deferred are. -/
def getImages (jobItem : JobItem) (localItem : LocalItem) (env : Env) :
    Res Unit :=
  getNextImage 0 localItem env

/-- Lines 403-438, `getItemSubtitle`: find the stream of the first media
source whose type is "Subtitle" and whose `Index` matches the file's; a
missing stream rejects the file's deferred outright (lines 412-418);
otherwise download, record the path on the stream, and persist the local
item. -/
def getItemSubtitle (file : AddFile) (jobItem : JobItem)
    (localItem : LocalItem) (mediaSource : MediaSource) (env : Env) :
    Res Unit :=
  match (mediaSource.MediaStreams.filter
      (fun m => m.type == "Subtitle" && m.Index == file.Index)).head? with
  | none => (Outcome.rejected, [])
  | some subtitleStream =>
      andThen
        (call (env.downloadSubtitlesR
            ("Sync/JobItems/" ++ jobItem.SyncJobItemId ++ "/AdditionalFiles")
            localItem subtitleStream)
          Ev.downloadSubtitlesEv)
        (fun subtitlePath =>
          -- line 429 writes the path onto the matched stream object, then
          -- persists the local item (the stream belongs to the job item's
          -- media source, so the persisted record is structurally the same)
          let _pathedStream := { subtitleStream with Path := some subtitlePath }
          andThen (call (env.addOrUpdateLocalItemR localItem)
              Ev.addOrUpdateLocalItemEv)
            (fun _ => (Outcome.resolved (), []))
            (Outcome.rejected, []))
        (Outcome.rejected, [])

/-- Lines 384-401, `getNextSubtitle(files, index, apiClient, jobItem,
localItem, mediaSource)`: the base case (line 390) reads `deferred` and
the step case (line 394) reads `file`; neither name is bound in any
enclosing scope, so whichever branch is taken throws, and the subtitles
deferred is never settled.  The `default` file passed to the dead
continuation stands for the value the unbound identifier would have
had. -/
def getNextSubtitle (files : List AddFile) (index : Nat)
    (jobItem : JobItem) (localItem : LocalItem) (mediaSource : MediaSource)
    (env : Env) : Res Unit :=
  if h : index ≥ files.length then
    readIdent (scopeChainOf getNextSubtitleLocalNames) "deferred"
      (Outcome.resolved (), [])
  else
    readIdent (scopeChainOf getNextSubtitleLocalNames) "file"
      (seqSwallow (getItemSubtitle default jobItem localItem mediaSource env)
        (getNextSubtitle files (index + 1) jobItem localItem mediaSource env))
termination_by files.length - index
decreasing_by
  simp only [not_le] at h
  omega

/-- Lines 359-382, `getSubtitles`: with an empty media-source list the
code logs through the unbound lowercase identifier `logger` (line 367,
the global is `Logger`) and would then resolve; with a nonempty list it
filters the subtitle-typed additional files and starts the iteration on
the first media source. -/
def getSubtitles (jobItem : JobItem) (localItem : LocalItem) (env : Env) :
    Res Unit :=
  if jobItem.Item.MediaSources.length = 0 then
    readIdent (scopeChainOf getSubtitlesLocalNames) "logger"
      (Outcome.resolved (), [])
  else
    (let files := jobItem.AdditionalFiles.filter
        (fun f => f.type == "Subtitles");
     let mediaSource := jobItem.Item.MediaSources.getD 0 default;
     getNextSubtitle files 0 jobItem localItem mediaSource env)

/-- Lines 231-258, `downloadMedia`: download the media body to the local
path reserved by the local item, then persist the record; failures reject
via `getOnFail`. -/
def downloadMedia (jobItem : JobItem) (localItem : LocalItem) (env : Env) :
    Res Unit :=
  let url := "Sync/JobItems/" ++ jobItem.SyncJobItemId ++ "/File"
  let localPath := localItem.LocalPath
  andThen
    (call (env.downloadFileR url localPath) (Ev.downloadFileEv localPath))
    (fun _ =>
      andThen
        (call (env.addOrUpdateLocalItemR localItem) Ev.addOrUpdateLocalItemEv)
        (fun _ => (Outcome.resolved (), []))
        (Outcome.rejected, []))
    (Outcome.rejected, [])

/-- Lines 196-229, `getNewItem`: create the local record, download the
media body, the images, the subtitles, and finally report the transfer
complete; every step's failure rejects this item's deferred via
`getOnFail`. -/
def getNewItem (jobItem : JobItem) (serverInfo : ServerInfo) (env : Env) :
    Res Unit :=
  let libraryItem := jobItem.Item
  andThen
    (call (env.createLocalItemR libraryItem serverInfo jobItem.OriginalFileName)
      Ev.createLocalItemEv)
    (fun localItem =>
      andThen (downloadMedia jobItem localItem env)
        (fun _ =>
          andThen (getImages jobItem localItem env)
            (fun _ =>
              andThen (getSubtitles jobItem localItem env)
                (fun _ =>
                  andThen
                    (call (env.reportSyncJobItemTransferredR
                        jobItem.SyncJobItemId)
                      (Ev.reportTransferredEv jobItem.SyncJobItemId))
                    (fun _ => (Outcome.resolved (), []))
                    (Outcome.rejected, []))
                (Outcome.rejected, []))
            (Outcome.rejected, []))
        (Outcome.rejected, []))
    (Outcome.rejected, [])

/-- Lines 178-194, `getNextNewItem`: sequential iteration over the job
items; `done` and `fail` both continue with the next index, so a
rejected per-item pipeline is swallowed (claim C7) — but an unsettled one
stalls the iteration forever. -/
def getNextNewItem (jobItems : List JobItem) (index : Nat)
    (serverInfo : ServerInfo) (env : Env) : Res Unit :=
  if h : index ≥ jobItems.length then (Outcome.resolved (), [])
  else
    seqSwallow (getNewItem (jobItems.getD index default) serverInfo env)
      (getNextNewItem jobItems (index + 1) serverInfo env)
termination_by jobItems.length - index
decreasing_by
  simp only [not_le] at h
  omega

/-- Lines 163-176, `getNewMedia`: request the ready job items and iterate
them; a failure of the listing call itself rejects the phase. -/
def getNewMedia (serverInfo : ServerInfo) (env : Env) : Res Unit :=
  andThen
    (call (env.getReadySyncItemsR env.deviceId) Ev.getReadySyncItemsEv)
    (fun jobItems => getNextNewItem jobItems 0 serverInfo env)
    (Outcome.rejected, [])

/-- Lines 7-33, `self.sync`: the four phases chained strictly in order,
each phase's failure rejecting the run.  Both `syncData` calls pass
`false` as the `syncUserItemAccess` flag (lines 14 and 20) — the second
pass is not invoked with access propagation enabled (claim C1). -/
def sync (serverInfo : ServerInfo) (env : Env) : Res Unit :=
  andThen (reportOfflineActions serverInfo env)
    (fun _ =>
      -- line 14: "Do the first data sync", flag false
      andThen (syncData serverInfo false env)
        (fun _ =>
          -- line 17: "Download new content"
          andThen (getNewMedia serverInfo env)
            (fun _ =>
              -- line 20: "Do the second data sync", flag false again
              andThen (syncData serverInfo false env)
                (fun _ => (Outcome.resolved (), []))
                (Outcome.rejected, []))
            (Outcome.rejected, []))
        (Outcome.rejected, []))
    (Outcome.rejected, [])

/-- Concrete server target used by the closed evaluations. -/
def serverInfoW : ServerInfo := { Id := "s1", Users := some [{ Id := "u1" }] }

/-- Concrete local item record used by the closed evaluations. -/
def localItemW : LocalItem := { LocalPath := "p1", UserIdsWithAccess := ["u1"] }

/-- A reconciliation result with nothing to remove and a nonempty access
mapping — what pass 2 of a successful run receives. -/
def resC1 : SyncDataResult :=
  { ItemIdsToRemove := [], ItemUserAccess := [("i1", ["u1"])] }

/-- A reconciliation result with two items to remove. -/
def resC2 : SyncDataResult :=
  { ItemIdsToRemove := ["a", "b"], ItemUserAccess := [] }

/-- A reconciliation result whose access list for item "i1" is the
stored list of `envAllOk`'s local item in reversed order. -/
def resC4 : SyncDataResult :=
  { ItemIdsToRemove := [], ItemUserAccess := [("i1", ["b", "a"])] }

/-- A library item with every image slot populated: its own primary tag,
a series with a primary tag, and an album with a primary tag. -/
def libAllSlots : LibraryItem :=
  { Id := some "it1", ServerId := "s1",
    ImageTags := some [("Primary", "t0")],
    SeriesId := some "ser1", SeriesPrimaryImageTag := some "t1",
    AlbumId := some "al1", AlbumPrimaryImageTag := some "t3",
    MediaSources := [] }

/-- A job item whose creation and media download succeed against
`envAllOk`. -/
def jobItemW : JobItem :=
  { Item := libAllSlots, OriginalFileName := "f.mkv",
    AdditionalFiles := [], SyncJobItemId := "j1" }

/-- A job item with a nonempty media-source list (and one subtitle-typed
additional file), for the subtitle claims. -/
def jobItemSubW : JobItem :=
  { Item := { libAllSlots with
      MediaSources :=
        [{ MediaStreams :=
            [{ type := "Subtitle", Index := 3, Path := none }] }] },
    OriginalFileName := "f.mkv",
    AdditionalFiles := [{ type := "Subtitles", Name := "f.srt", Index := 3 }],
    SyncJobItemId := "j1" }

/-- The stored local item returned by `envAllOk`'s store lookup: access
list ["a", "b"]. -/
def localItemAB : LocalItem := { LocalPath := "p1", UserIdsWithAccess := ["a", "b"] }

/-- An oracle in which every collaborator call succeeds: no queued
actions, local inventory ["i1"], reconciliation answers `resC1`, an empty
ready-job list, and a stored local item whose access list is
["a", "b"]. -/
def envAllOk : Env :=
  { deviceId := "dev1", accessToken := "tok1",
    getOfflineActionsR := fun _ => Except.ok [],
    reportOfflineActionsR := fun _ => Except.ok (),
    deleteOfflineActionsR := fun _ => Except.ok (),
    getServerItemIdsR := fun _ => Except.ok ["i1"],
    syncDataR := fun _ => Except.ok resC1,
    removeLocalItemR := fun _ _ => Except.ok (),
    getReadySyncItemsR := fun _ => Except.ok [],
    createLocalItemR := fun _ _ _ => Except.ok localItemW,
    downloadFileR := fun _ _ => Except.ok (),
    addOrUpdateLocalItemR := fun _ => Except.ok (),
    hasImageR := fun _ _ _ => Except.ok false,
    downloadImageR := fun _ _ _ _ => Except.ok (),
    getLocalItemR := fun _ _ => Except.ok localItemAB,
    downloadSubtitlesR := fun _ _ _ => Except.ok "subpath",
    reportSyncJobItemTransferredR := fun _ => Except.ok () }

/-- `envAllOk`, except that removing item "a" fails. -/
def envC2 : Env :=
  { envAllOk with
    removeLocalItemR := fun id _ =>
      if id == "a" then Except.error () else Except.ok () }

/-- `envAllOk`, except that every image download fails. -/
def envSlotFail : Env :=
  { envAllOk with downloadImageR := fun _ _ _ _ => Except.error () }

/-- `envAllOk`, except that the ready-job list contains `jobItemW`. -/
def envC7 : Env :=
  { envAllOk with getReadySyncItemsR := fun _ => Except.ok [jobItemW] }

/-- `envAllOk`, except that the action queue holds one record and the
upload of the batch fails. -/
def envC3 : Env :=
  { envAllOk with
    getOfflineActionsR := fun _ => Except.ok [{ Id := "act1" }],
    reportOfflineActionsR := fun _ => Except.error () }

/-- Reading an unbound identifier leaves the deferred unsettled with only
the fault event. -/
theorem readIdent_absent {α : Type} {scopeChain : List String} {name : String}
    (h : name ∉ scopeChain) (k : Res α) :
    readIdent scopeChain name k = (Outcome.unsettled, [Ev.scopeFaultEv name]) := by
  simp [readIdent, h]

/-- The image sub-step always faults on the unbound `item` (line 277),
whatever the inputs. -/
theorem getImages_unsettled (jobItem : JobItem) (localItem : LocalItem)
    (env : Env) :
    getImages jobItem localItem env =
      (Outcome.unsettled, [Ev.scopeFaultEv "item"]) := rfl

/-- The removal iteration, from any starting index: it always resolves,
and its trace is exactly one removal attempt per remaining id, in list
order, each recording that id's own outcome. -/
theorem removeNextLocalItem_spec (serverId : String) (env : Env) :
    ∀ (n : Nat) (ids : List String) (index : Nat),
      ids.length - index ≤ n →
      removeNextLocalItem ids index serverId env =
        (Outcome.resolved (),
         (ids.drop index).map
           (fun id =>
             Ev.removeItemEv id (exOk (env.removeLocalItemR id serverId)))) := by
  intro n
  induction n with
  | zero =>
    intro ids index h
    have hge : index ≥ ids.length := by omega
    rw [removeNextLocalItem.eq_def, dif_pos hge, List.drop_eq_nil_of_le hge]
    simp
  | succ n ih =>
    intro ids index h
    by_cases hge : index ≥ ids.length
    · rw [removeNextLocalItem.eq_def, dif_pos hge, List.drop_eq_nil_of_le hge]
      simp
    · have hlt : index < ids.length := by omega
      have hdrop : ids.drop index = ids.getD index "" :: ids.drop (index + 1) := by
        rw [List.getD_eq_getElem _ _ hlt]
        exact List.drop_eq_getElem_cons hlt
      rw [removeNextLocalItem.eq_def, dif_neg hge, ih ids (index + 1) (by omega),
        hdrop]
      simp only [removeLocalItem, call]
      cases hcall : env.removeLocalItemR (ids.getD index "") serverId with
      | ok u =>
        cases u
        simp only [seqSwallow, List.map_cons, hcall, exOk]
        simp
      | error e =>
        cases e
        simp only [seqSwallow, List.map_cons, hcall, exOk]
        simp

/-- Claim C3: for every nonempty queue of offline action records, a failed
upload rejects the reporting call with no deletion of the queued records
(the local queue is untouched), and any deletion that does occur can only
follow a successful, acknowledged upload of that batch. -/
theorem c3_no_delete_without_acknowledged_upload :
    ∀ (serverInfo : ServerInfo) (env : Env) (actions : List RemoteAction),
      env.getOfflineActionsR serverInfo.Id = Except.ok actions →
      actions.length ≠ 0 →
      ((env.reportOfflineActionsR actions = Except.error () →
          (reportOfflineActions serverInfo env).1 = Outcome.rejected ∧
          (reportOfflineActions serverInfo env).2.any isDeleteActionsEv
            = false) ∧
       ((reportOfflineActions serverInfo env).2.any isDeleteActionsEv
            = true →
          env.reportOfflineActionsR actions = Except.ok () ∧
          Ev.reportActionsEv actions.length true
            ∈ (reportOfflineActions serverInfo env).2)) := by
  intro serverInfo env actions hget hne
  constructor
  · intro hrep
    constructor
    · simp [reportOfflineActions, call, andThen, hget, hrep, hne]
    · simp [reportOfflineActions, call, andThen, hget, hrep, hne,
            isDeleteActionsEv]
  · intro hdel
    cases hrep : env.reportOfflineActionsR actions with
    | error e =>
      exfalso
      cases e
      simp [reportOfflineActions, call, andThen, hget, hrep, hne,
            isDeleteActionsEv] at hdel
    | ok u =>
      cases u
      refine ⟨rfl, ?_⟩
      cases hdelc : env.deleteOfflineActionsR actions with
      | ok v =>
        simp [reportOfflineActions, call, andThen, hget, hrep, hdelc, hne]
      | error e =>
        simp [reportOfflineActions, call, andThen, hget, hrep, hdelc, hne]

/-- Witness for claim C3 at a concrete input: one queued action, upload
fails — the call rejects and no delete event is in the trace. -/
theorem c3_witness :
    (reportOfflineActions serverInfoW envC3).1 = Outcome.rejected ∧
    (reportOfflineActions serverInfoW envC3).2.any isDeleteActionsEv
      = false :=
  (c3_no_delete_without_acknowledged_upload serverInfoW envC3
    [{ Id := "act1" }] rfl (by decide)).1 rfl

/-- Claim C8: for every removal list and every index, every remaining item
gets its own deletion attempt in order — a failing item never prevents
the attempts after it — the removal iteration always resolves, and the
reconciliation call (`afterSyncData`) always ends resolved, so no
per-item deletion failure can fail it. -/
theorem c8_removal_fault_isolation :
    (∀ (ids : List String) (index : Nat) (serverId : String) (env : Env),
       removeNextLocalItem ids index serverId env =
         (Outcome.resolved (),
          (ids.drop index).map
            (fun id =>
              Ev.removeItemEv id (exOk (env.removeLocalItemR id serverId))))) ∧
    (∀ (serverInfo : ServerInfo) (enable : Bool) (res : SyncDataResult)
       (env : Env),
       (afterSyncData serverInfo enable res env).1 = Outcome.resolved ()) := by
  constructor
  · intro ids index serverId env
    exact removeNextLocalItem_spec serverId env (ids.length - index) ids index
      le_rfl
  · intro serverInfo enable res env
    simp only [afterSyncData]
    split_ifs <;> rfl

/-- Witness for claim C8 at a concrete input: removal list ["a", "b"]
with the removal of "a" failing — both attempts occur in order and the
phase resolves. -/
theorem c8_witness :
    removeNextLocalItem ["a", "b"] 0 "s1" envC2 =
      (Outcome.resolved (),
       [Ev.removeItemEv "a" false, Ev.removeItemEv "b" true]) := by
  have h := c8_removal_fault_isolation.1 ["a", "b"] 0 "s1" envC2
  simpa [envC2, envAllOk, exOk] using h

/-- Claim C9: for every job item, evaluating the first image slot in
`getNextImage` reads `item.Item` (line 277) where `item` is bound in no
enclosing scope (the parameter is `localItem` and the job item is not
passed in), so the image sub-step faults before any slot of the slot
table can be resolved, skipped, or downloaded: the images deferred is
never settled and the only event is the `ReferenceError`. -/
theorem c9_image_step_faults_on_unbound_item :
    "item" ∉ scopeChainOf getNextImageLocalNames ∧
    ∀ (jobItem : JobItem) (localItem : LocalItem) (env : Env),
      getImages jobItem localItem env =
        (Outcome.unsettled, [Ev.scopeFaultEv "item"]) := by
  exact ⟨by decide, fun jobItem localItem env => rfl⟩

/-- Witness for claim C9 at a concrete input: the image sub-step of
`jobItemSubW` faults on the unbound `item` with no slot activity. -/
theorem c9_witness :
    getImages jobItemSubW localItemW envAllOk =
      (Outcome.unsettled, [Ev.scopeFaultEv "item"]) :=
  c9_image_step_faults_on_unbound_item.2 jobItemSubW localItemW envAllOk

/-- Claim C6 (code bug): slot evaluation never happens.  Evaluating the
image sub-step at a failing input — a job item with all four slot
identities and tags populated, every collaborator call succeeding — shows
it throws on the unbound identifier `item` before visiting slot 0, instead
of walking the slot table in order as the claim describes. -/
theorem c6_slot_order_unreachable_in_code :
    getImages jobItemW localItemW envAllOk =
      (Outcome.unsettled, [Ev.scopeFaultEv "item"]) := rfl

/-- Claim C2 (code bug): at a failing input — a reconciliation result
naming two items to remove, with the removal of "a" failing — the
reconciliation deferred is resolved (the first event) before either
removal attempt has happened, i.e. `afterSyncData`'s unconditional
`deferred.resolve()` at line 113 declares success while the removal
sub-phase is still pending, and the outcome stays `resolved` regardless
of the per-item failure. -/
theorem c2_reconciliation_resolves_before_removal :
    afterSyncData serverInfoW false resC2 envC2 =
      (Outcome.resolved (),
       [Ev.reconcileResolvedEv, Ev.removeItemEv "a" false,
        Ev.removeItemEv "b" true]) := by
  simp [afterSyncData, removeLocalItems, removeNextLocalItem,
        removeLocalItem, call, seqSwallow, resC2, envC2, envAllOk,
        serverInfoW]

/-- Claim C1 (code bug): a fully successful sync run (every collaborator
call of `envAllOk` succeeds; the second reconciliation answer carries a
nonempty access mapping) resolves, yet performs no access-propagation
work at all — no `getLocalItem` is ever issued — because line 20 passes
`false` for the `syncUserItemAccess` flag of the second pass.  The third
conjunct shows the access sub-phase is not trivially empty at this input:
invoked directly on the same reconciliation result, it does produce
work. -/
theorem c1_second_pass_without_access_propagation :
    (sync serverInfoW envAllOk).1 = Outcome.resolved () ∧
    (sync serverInfoW envAllOk).2.any isGetLocalItemEv = false ∧
    (syncUserItemAccess resC1 serverInfoW.Id envAllOk).2 ≠ [] := by
  refine ⟨?_, ?_, ?_⟩
  · simp [sync, reportOfflineActions, syncData, afterSyncData, getNewMedia,
          getNextNewItem, call, andThen, envAllOk, serverInfoW, resC1]
  · simp [sync, reportOfflineActions, syncData, afterSyncData, getNewMedia,
          getNextNewItem, call, andThen, envAllOk, serverInfoW, resC1,
          isGetLocalItemEv]
  · simp [syncUserItemAccess, syncNextUserAccessForItem,
          syncUserAccessForItem, readIdent, seqSwallow, resC1, serverInfoW,
          scopeChainOf, syncUserAccessForItemLocalNames, mediaSyncBodyNames,
          moduleAmbientNames]

/-- The subtitle iteration never settles: its base case reads the unbound
`deferred` and its step case reads the unbound `file`, so whichever
branch is taken throws. -/
theorem getNextSubtitle_unsettled (files : List AddFile) (index : Nat)
    (jobItem : JobItem) (localItem : LocalItem) (mediaSource : MediaSource)
    (env : Env) :
    (getNextSubtitle files index jobItem localItem mediaSource env).1 =
      Outcome.unsettled := by
  rw [getNextSubtitle.eq_def]
  split
  · rw [readIdent_absent (by decide) _]
  · rw [readIdent_absent (by decide) _]

/-- The per-item pipeline never reports a transfer complete: whenever the
create and media-download steps succeed, the image sub-step faults on the
unbound `item` and leaves the item's deferred unsettled, and every
earlier failure rejects before the report. -/
theorem getNewItem_no_report (jobItem : JobItem) (serverInfo : ServerInfo)
    (env : Env) :
    (getNewItem jobItem serverInfo env).2.any isReportTransferredEv
      = false := by
  simp only [getNewItem]
  cases hc : env.createLocalItemR jobItem.Item serverInfo
      jobItem.OriginalFileName with
  | error e =>
    simp only [call, hc, andThen]
    simp [isReportTransferredEv]
  | ok localItem =>
    simp only [call, hc, andThen, downloadMedia]
    cases hd : env.downloadFileR ("Sync/JobItems/" ++ jobItem.SyncJobItemId
        ++ "/File") localItem.LocalPath with
    | error e =>
      simp only [call, hd, andThen]
      simp [isReportTransferredEv]
    | ok u =>
      cases ha : env.addOrUpdateLocalItemR localItem with
      | error e =>
        simp only [call, hd, ha, andThen]
        simp [isReportTransferredEv]
      | ok v =>
        simp only [call, hd, ha, andThen, getImages_unsettled]
        simp [isReportTransferredEv]

/-- Claim C10: neither `deferred` (line 390) nor `file` (line 394) is
bound in any scope enclosing `getNextSubtitle`, so both its base case and
its step case fault; consequently, for every job item with a nonempty
media-source list the promise returned by `getSubtitles` is never
resolved nor rejected, and the per-item pipeline never reaches the
transfer-completion report for such an item. -/
theorem c10_subtitle_iteration_unbound_idents :
    "deferred" ∉ scopeChainOf getNextSubtitleLocalNames ∧
    "file" ∉ scopeChainOf getNextSubtitleLocalNames ∧
    ∀ (jobItem : JobItem) (localItem : LocalItem) (serverInfo : ServerInfo)
      (env : Env),
      jobItem.Item.MediaSources ≠ [] →
      (getSubtitles jobItem localItem env).1 = Outcome.unsettled ∧
      (getNewItem jobItem serverInfo env).2.any isReportTransferredEv
        = false := by
  refine ⟨by decide, by decide, fun jobItem localItem serverInfo env hne => ?_⟩
  refine ⟨?_, getNewItem_no_report jobItem serverInfo env⟩
  have hlen : ¬ jobItem.Item.MediaSources.length = 0 := by
    simpa [List.length_eq_zero] using hne
  simp only [getSubtitles]
  rw [if_neg hlen]
  exact getNextSubtitle_unsettled _ 0 _ _ _ _

/-- Witness for claim C10 at a concrete input: a job item with one media
source and one subtitle-typed additional file. -/
theorem c10_witness :
    (getSubtitles jobItemSubW localItemW envAllOk).1 = Outcome.unsettled ∧
    (getNewItem jobItemSubW serverInfoW envAllOk).2.any isReportTransferredEv
      = false :=
  c10_subtitle_iteration_unbound_idents.2.2 jobItemSubW localItemW serverInfoW
    envAllOk (by decide)

/-- Claim C7 (code bug): at a failing input — a one-element job list whose
item's create and media-download steps succeed against an
otherwise-all-success oracle — the fetch phase does not complete: the
per-item pipeline faults on the unbound `item` in the image sub-step, the
item's deferred is never settled (a fault, not a rejection, so the
swallow-and-continue handler at lines 191-193 never fires), and
`getNewMedia`'s deferred is never resolved nor rejected. -/
theorem c7_fetch_phase_never_settles :
    getNewMedia serverInfoW envC7 =
      (Outcome.unsettled,
       [Ev.getReadySyncItemsEv true, Ev.createLocalItemEv true,
        Ev.downloadFileEv "p1" true, Ev.addOrUpdateLocalItemEv true,
        Ev.scopeFaultEv "item"]) := by
  simp [getNewMedia, getNextNewItem, getNewItem, downloadMedia,
        getImages_unsettled, call, andThen, seqSwallow, envC7, envAllOk,
        jobItemW, localItemW, libAllSlots, serverInfoW]

/-- A persisted-update call always leaves its event in the trace,
successful or not. -/
theorem andThen_addOrUpdate_any (x : Except Unit Unit) :
    ((andThen (call x Ev.addOrUpdateLocalItemEv)
        (fun _ => (Outcome.resolved (), []))
        (Outcome.rejected, ([] : List Ev))).2.any isAddOrUpdateEv)
      = true := by
  cases x <;> simp [call, andThen, isAddOrUpdateEv]

/-- Counterexample to claim C4: the stored access list ["a", "b"] and the
server-reported list ["b", "a"] are equal as sets, yet the access
sub-phase logic writes (an `addOrUpdateLocalItem` call occurs), because
line 484 compares the comma-joined strings, which differ. -/
theorem c4_counterexample_set_equal_still_writes :
    (["b", "a"] : List String).toFinset = (["a", "b"] : List String).toFinset ∧
    (syncUserAccessForItemCore "i1" resC4 "s1" envAllOk).2.any isAddOrUpdateEv
      = true := by
  constructor
  · decide
  · decide

/-- Claim C4 as amended: in the access sub-phase logic (lines 480-496,
with the free `serverId` supplied), given that the local item loads, a
write-and-persist occurs exactly when the comma-joined server-reported
list differs from the comma-joined stored list — an order-sensitive
sequence comparison, not a set comparison; when the joined strings are
equal, no write occurs. -/
theorem c4_write_iff_joined_strings_differ :
    ∀ (itemId serverId : String) (syncDataResult : SyncDataResult)
      (env : Env) (localItem : LocalItem),
      env.getLocalItemR itemId serverId = Except.ok localItem →
      ((syncUserAccessForItemCore itemId syncDataResult serverId env).2.any
          isAddOrUpdateEv = true ↔
        joinComma ((syncDataResult.ItemUserAccess.lookup itemId).getD []) ≠
          joinComma localItem.UserIdsWithAccess) := by
  intro itemId serverId res env localItem hget
  by_cases hj : joinComma ((res.ItemUserAccess.lookup itemId).getD []) =
      joinComma localItem.UserIdsWithAccess
  · simp [syncUserAccessForItemCore, call, hget, andThen, hj, isAddOrUpdateEv]
  · have hj' : (joinComma ((res.ItemUserAccess.lookup itemId).getD []) ==
        joinComma localItem.UserIdsWithAccess) = false := by
      simpa using hj
    cases haux : env.addOrUpdateLocalItemR
        { localItem with
          UserIdsWithAccess := (res.ItemUserAccess.lookup itemId).getD [] } with
    | ok u =>
      cases u
      simp [syncUserAccessForItemCore, call, hget, andThen, hj', hj,
            isAddOrUpdateEv, haux]
    | error e =>
      cases e
      simp [syncUserAccessForItemCore, call, hget, andThen, hj', hj,
            isAddOrUpdateEv, haux]

/-- Witness for the amended claim C4 at a concrete input: stored list
["a", "b"], server list ["b", "a"] — the write happens and the joined
strings indeed differ. -/
theorem c4_amended_witness :
    (syncUserAccessForItemCore "i1" resC4 "s1" envAllOk).2.any isAddOrUpdateEv
        = true ↔
      joinComma ((resC4.ItemUserAccess.lookup "i1").getD []) ≠
        joinComma localItemAB.UserIdsWithAccess :=
  c4_write_iff_joined_strings_differ "i1" "s1" resC4 envAllOk localItemAB rfl

/-- Counterexample to claim C5, on the slot-evaluation logic of
lines 279-325 (the part of `getNextImage` after the unbound-`item` read,
which is settled separately): with every slot of the library item
populated and the download of slot 0 failing, the image sub-step is
rejected and slot 1 is never visited — the failure is not swallowed and
iteration does not continue. -/
theorem c5_counterexample_slot_failure_not_swallowed :
    (getNextImageSlots 0 libAllSlots localItemW envSlotFail).1 =
      Outcome.rejected ∧
    Ev.slotVisitedEv 1 ∉ (getNextImageSlots 0 libAllSlots localItemW
      envSlotFail).2 := by
  constructor
  · simp [getNextImageSlots, downloadImage, call, andThen, libAllSlots,
          localItemW, envSlotFail, envAllOk, slotItemId, slotImageTag,
          slotImageType, truthyStr]
  · simp [getNextImageSlots, downloadImage, call, andThen, libAllSlots,
          localItemW, envSlotFail, envAllOk, slotItemId, slotImageTag,
          slotImageType, truthyStr]

/-- Claim C5 as amended: in the slot-evaluation logic, whenever a slot
with both identity and tag is reached, the local image check reports the
image absent, and the download fails, the image sub-step is rejected via
`getOnFail` (line 324) with exactly this slot's events in the trace — no
later slot is attempted, so per-slot download failures are not swallowed
and a single slot's failure fails the whole image sub-step. -/
theorem c5_slot_download_failure_rejects :
    ∀ (index : Nat) (libraryItem : LibraryItem) (localItem : LocalItem)
      (env : Env),
      index < 4 →
      truthyStr (slotItemId index libraryItem) = true →
      truthyStr (slotImageTag index libraryItem) = true →
      env.hasImageR libraryItem.ServerId
          ((slotItemId index libraryItem).getD "")
          ((slotImageTag index libraryItem).getD "") = Except.ok false →
      env.downloadImageR libraryItem.ServerId
          ((slotItemId index libraryItem).getD "")
          ((slotImageTag index libraryItem).getD "")
          (slotImageType index) = Except.error () →
      getNextImageSlots index libraryItem localItem env =
        (Outcome.rejected,
         [Ev.slotVisitedEv index,
          Ev.hasImageEv libraryItem.ServerId
            ((slotItemId index libraryItem).getD "")
            ((slotImageTag index libraryItem).getD "") (some false),
          Ev.downloadImageEv ((slotItemId index libraryItem).getD "")
            ((slotImageTag index libraryItem).getD "") false]) := by
  intro index libraryItem localItem env hidx hid htag hhas hdl
  rw [getNextImageSlots.eq_def, dif_neg (by omega)]
  simp only [downloadImage, hhas, call, hdl, andThen, hid, htag]
  simp

/-- Witness for the amended claim C5 at a concrete input: slot 0 of a
fully populated library item, image absent locally, download failing. -/
theorem c5_amended_witness :
    getNextImageSlots 0 libAllSlots localItemW envSlotFail =
      (Outcome.rejected,
       [Ev.slotVisitedEv 0, Ev.hasImageEv "s1" "it1" "t0" (some false),
        Ev.downloadImageEv "it1" "t0" false]) := by
  have h := c5_slot_download_failure_rejects 0 libAllSlots localItemW
    envSlotFail (by decide) (by decide) (by decide) rfl rfl
  simpa [libAllSlots, slotItemId, slotImageTag, slotImageType] using h

end MediaSyncSpec

